import Mathlib

/-!
Shallow embedding of the matterjs-ts game core: the BodyWrapper coordinate
transform, the GameManager score/attempts/game-over state machine, and the
BoundaryBox collection logic (polling and collision paths), together with
theorems checking the specification's claims against these definitions.
Coordinates and counters are modelled as rationals (JS numbers; all the
operations involved are exact on the values that occur).
-/

namespace MatterTs

/-- A 2D point, as used for body positions and region corners. -/
structure Vec where
  x : ℚ
  y : ℚ
deriving DecidableEq

/-- Simulation-area bounds, mirroring the BodyWrapper bounds field:
min is the top-left corner, max the bottom-right corner. -/
structure Bounds where
  min : Vec
  max : Vec
deriving DecidableEq

/-- First half of BodyWrapper.wrapBody: wrapping along the x-axis.
If the body moved beyond the left edge it reappears from the right edge,
and symmetrically; the y coordinate is left untouched. -/
def wrapX (bounds : Bounds) (p : Vec) : Vec :=
  if p.x < bounds.min.x then
    { x := bounds.max.x - (bounds.min.x - p.x), y := p.y }
  else if p.x > bounds.max.x then
    { x := bounds.min.x + (p.x - bounds.max.x), y := p.y }
  else p

/-- Second half of BodyWrapper.wrapBody: wrapping along the y-axis,
leaving the x coordinate untouched. -/
def wrapY (bounds : Bounds) (p : Vec) : Vec :=
  if p.y < bounds.min.y then
    { x := p.x, y := bounds.max.y - (bounds.min.y - p.y) }
  else if p.y > bounds.max.y then
    { x := p.x, y := bounds.min.y + (p.y - bounds.max.y) }
  else p

/-- BodyWrapper.wrapBody: the x-axis block runs first, then the y-axis
block runs on the (possibly updated) position, exactly as in the source. -/
def wrapBody (bounds : Bounds) (p : Vec) : Vec :=
  wrapY bounds (wrapX bounds p)

theorem wrapX_y (bounds : Bounds) (p : Vec) : (wrapX bounds p).y = p.y := by
  unfold wrapX; split_ifs <;> rfl

theorem wrapY_x (bounds : Bounds) (p : Vec) : (wrapY bounds p).x = p.x := by
  unfold wrapY; split_ifs <;> rfl

theorem wrapX_x (bounds : Bounds) (p : Vec) :
    (wrapX bounds p).x =
      if p.x < bounds.min.x then bounds.max.x - (bounds.min.x - p.x)
      else if p.x > bounds.max.x then bounds.min.x + (p.x - bounds.max.x)
      else p.x := by
  unfold wrapX; split_ifs <;> rfl

theorem wrapBody_x (bounds : Bounds) (p : Vec) :
    (wrapBody bounds p).x =
      if p.x < bounds.min.x then bounds.max.x - (bounds.min.x - p.x)
      else if p.x > bounds.max.x then bounds.min.x + (p.x - bounds.max.x)
      else p.x := by
  unfold wrapBody
  rw [wrapY_x, wrapX_x]

theorem wrapBody_y (bounds : Bounds) (p : Vec) :
    (wrapBody bounds p).y =
      if p.y < bounds.min.y then bounds.max.y - (bounds.min.y - p.y)
      else if p.y > bounds.max.y then bounds.min.y + (p.y - bounds.max.y)
      else p.y := by
  unfold wrapBody wrapY
  rw [wrapX_y]
  split_ifs <;> simp [wrapX_y]

/-- Claim C4: wrap treats each axis independently, reflecting an
out-of-bounds coordinate by the overshoot distance and leaving an
in-bounds coordinate unchanged; concretely, wrapping position
(-10, 300) in the region 0..800 by 0..600 yields (790, 300). -/
theorem wrapBody_axiswise (R : Bounds) (P : Vec) :
    ((wrapBody R P).x =
        if P.x < R.min.x then R.max.x - (R.min.x - P.x)
        else if P.x > R.max.x then R.min.x + (P.x - R.max.x)
        else P.x)
    ∧ ((wrapBody R P).y =
        if P.y < R.min.y then R.max.y - (R.min.y - P.y)
        else if P.y > R.max.y then R.min.y + (P.y - R.max.y)
        else P.y)
    ∧ wrapBody ⟨⟨0, 0⟩, ⟨800, 600⟩⟩ ⟨-10, 300⟩ = ⟨790, 300⟩ := by
  refine ⟨wrapBody_x R P, wrapBody_y R P, ?_⟩
  unfold wrapBody wrapX wrapY
  norm_num

/-- Witness for C4 at a concrete region and position. -/
theorem wrapBody_axiswise_witness :
    (wrapBody ⟨⟨0, 0⟩, ⟨800, 600⟩⟩ ⟨-10, 300⟩).x =
      (if (-10 : ℚ) < 0 then (800 : ℚ) - (0 - (-10))
       else if (-10 : ℚ) > 800 then 0 + ((-10) - 800) else (-10 : ℚ)) :=
  (wrapBody_axiswise ⟨⟨0, 0⟩, ⟨800, 600⟩⟩ ⟨-10, 300⟩).1

theorem wrapBody_of_inBounds (R : Bounds) (q : Vec)
    (hx1 : R.min.x ≤ q.x) (hx2 : q.x ≤ R.max.x)
    (hy1 : R.min.y ≤ q.y) (hy2 : q.y ≤ R.max.y) :
    wrapBody R q = q := by
  unfold wrapBody wrapX wrapY
  split_ifs <;> first
    | rfl
    | (exfalso; simp_all; linarith)

/-- Claim C9: wrap is idempotent for positions at most one region-width
outside the region on each axis. -/
theorem wrapBody_idempotent (R : Bounds) (P : Vec)
    (hwx : R.min.x ≤ R.max.x) (hwy : R.min.y ≤ R.max.y)
    (hx1 : R.min.x - (R.max.x - R.min.x) ≤ P.x)
    (hx2 : P.x ≤ R.max.x + (R.max.x - R.min.x))
    (hy1 : R.min.y - (R.max.y - R.min.y) ≤ P.y)
    (hy2 : P.y ≤ R.max.y + (R.max.y - R.min.y)) :
    wrapBody R (wrapBody R P) = wrapBody R P := by
  have hx := wrapBody_x R P
  have hy := wrapBody_y R P
  apply wrapBody_of_inBounds
  · rw [hx]; split_ifs <;> linarith
  · rw [hx]; split_ifs <;> linarith
  · rw [hy]; split_ifs <;> linarith
  · rw [hy]; split_ifs <;> linarith

/-- Witness for C9: idempotence at a concrete out-of-bounds position. -/
theorem wrapBody_idempotent_witness :
    wrapBody ⟨⟨0, 0⟩, ⟨800, 600⟩⟩ (wrapBody ⟨⟨0, 0⟩, ⟨800, 600⟩⟩ ⟨-10, 650⟩)
      = wrapBody ⟨⟨0, 0⟩, ⟨800, 600⟩⟩ ⟨-10, 650⟩ :=
  wrapBody_idempotent ⟨⟨0, 0⟩, ⟨800, 600⟩⟩ ⟨-10, 650⟩
    (by norm_num) (by norm_num) (by norm_num) (by norm_num) (by norm_num)
    (by norm_num)

/-- A physics body, reduced to the attributes the game core reads: the
unique id the engine assigns, the center position, and the static flag. -/
structure Body where
  id : ℕ
  position : Vec
  isStatic : Bool
deriving DecidableEq

/-- The GameManager singleton's state fields: score, attempts, the initial
non-static body count, and the game-over flag. The nullable engine and
restart-callback references are modelled by whether they are set. -/
structure GameManagerState where
  score : ℚ
  attempts : ℚ
  initialBodyCount : ℚ
  isGameOver : Bool
  engineSet : Bool
  restartCallbackSet : Bool
deriving DecidableEq

/-- The combined state the game core reads and writes: the world of the
engine (the list of bodies, shared between the GameManager's engine
reference and the BoundaryBox) and the GameManager state. -/
structure SysState where
  world : List Body
  gm : GameManagerState
deriving DecidableEq

/-- GameManager.checkGameOver: returns unchanged if the game is already
over or no engine reference is set; otherwise, if no non-static bodies
remain and the initial body count is positive, sets the game-over flag. -/
def checkGameOver (s : SysState) : SysState :=
  if s.gm.isGameOver || !s.gm.engineSet then s
  else if (s.world.filter (fun body => !body.isStatic)).length = 0
      ∧ s.gm.initialBodyCount > 0 then
    { s with gm := { s.gm with isGameOver := true } }
  else s

/-- GameManager.addScore: adds the points to the score (default argument 1
at every call site), then checks whether the game is over. -/
def addScore (points : ℚ) (s : SysState) : SysState :=
  checkGameOver { s with gm := { s.gm with score := s.gm.score + points } }

/-- GameManager.addAttempt: adds the count to the attempts counter; it
does not evaluate the game-over condition. -/
def addAttempt (count : ℚ) (s : SysState) : SysState :=
  { s with gm := { s.gm with attempts := s.gm.attempts + count } }

/-- GameManager.resetScore: sets the score to zero. -/
def resetScore (s : SysState) : SysState :=
  { s with gm := { s.gm with score := 0 } }

/-- GameManager.resetAttempts: sets the attempts counter to zero. -/
def resetAttempts (s : SysState) : SysState :=
  { s with gm := { s.gm with attempts := 0 } }

/-- GameManager.resetGame: resets score, then attempts, then clears the
game-over flag. -/
def resetGame (s : SysState) : SysState :=
  let s1 := resetAttempts (resetScore s)
  { s1 with gm := { s1.gm with isGameOver := false } }

/-- GameManager.setInitialBodyCount: stores the baseline used by the
game-over predicate. -/
def setInitialBodyCount (count : ℚ) (s : SysState) : SysState :=
  { s with gm := { s.gm with initialBodyCount := count } }

/-- Modelled from the spec: Engine.removeBody delegates to the external
physics library's Composite.remove, whose body is not in this repository;
the spec's external-interface contract states that removing an absent
handle is a no-op. Engine bodies carry unique ids, so removing a body
keeps exactly the bodies whose id differs from it. -/
def removeBody (b : Body) (s : SysState) : SysState :=
  { s with world := s.world.filter (fun x => x.id ≠ b.id) }

theorem checkGameOver_gm_score (s : SysState) :
    (checkGameOver s).gm.score = s.gm.score := by
  unfold checkGameOver; split_ifs <;> rfl

theorem checkGameOver_world (s : SysState) :
    (checkGameOver s).world = s.world := by
  unfold checkGameOver; split_ifs <;> rfl

theorem addScore_gm_score (p : ℚ) (s : SysState) :
    (addScore p s).gm.score = s.gm.score + p := by
  unfold addScore; rw [checkGameOver_gm_score]

theorem addScore_world (p : ℚ) (s : SysState) :
    (addScore p s).world = s.world := by
  unfold addScore; rw [checkGameOver_world]

/- Concrete scenario for claim C1: three movable bodies and one static
wall, with the initial body count set to 3; each addScore call is
preceded by the removal of one movable body, as in the collection flow. -/

def bodyA : Body := ⟨1, ⟨100, 100⟩, false⟩

def bodyB : Body := ⟨2, ⟨200, 100⟩, false⟩

def bodyC : Body := ⟨3, ⟨300, 100⟩, false⟩

def wallD : Body := ⟨4, ⟨400, 590⟩, true⟩

def gmFresh : GameManagerState := ⟨0, 0, 0, false, true, false⟩

def c1Start : SysState :=
  setInitialBodyCount 3 ⟨[bodyA, bodyB, bodyC, wallD], gmFresh⟩

def c1Step1 : SysState := addScore 1 (removeBody bodyA c1Start)

def c1Step2 : SysState := addScore 1 (removeBody bodyB c1Step1)

def c1Step3 : SysState := addScore 1 (removeBody bodyC c1Step2)

def c1Step4 : SysState := addScore 1 c1Step3

/-- Claim C1: the game-over flag transitions false to true exactly once,
and only when the initial body count is positive, no non-static body
remains, and the game is not already over; in the concrete scenario with
initial body count 3, the transition happens on the 3rd addScore call,
not before, and a 4th call does not re-trigger it (the state is already
over and checkGameOver leaves it unchanged). -/
theorem gameOver_fires_exactly_once :
    (∀ s : SysState, s.gm.isGameOver = true → checkGameOver s = s)
    ∧ (∀ s : SysState, s.gm.isGameOver = false →
        (checkGameOver s).gm.isGameOver = true →
        s.gm.initialBodyCount > 0
          ∧ (s.world.filter (fun b => !b.isStatic)).length = 0)
    ∧ c1Step1.gm.isGameOver = false
    ∧ c1Step2.gm.isGameOver = false
    ∧ c1Step3.gm.isGameOver = true
    ∧ c1Step4.gm.isGameOver = true
    ∧ c1Step4.gm.score = c1Step3.gm.score + 1 := by
  refine ⟨?_, ?_, ?_, ?_, ?_, ?_, ?_⟩
  · intro s h
    simp [checkGameOver, h]
  · intro s h1 h2
    unfold checkGameOver at h2
    by_cases he : s.gm.isGameOver || !s.gm.engineSet
    · rw [if_pos he] at h2
      rw [h1] at h2
      cases h2
    · rw [if_neg he] at h2
      by_cases hc : (s.world.filter (fun b => !b.isStatic)).length = 0
          ∧ s.gm.initialBodyCount > 0
      · exact ⟨hc.2, hc.1⟩
      · rw [if_neg hc] at h2
        rw [h1] at h2
        cases h2
  · norm_num [c1Step1, c1Start, addScore, removeBody, checkGameOver,
      setInitialBodyCount, gmFresh, bodyA, bodyB, bodyC, wallD, List.filter]
  · norm_num [c1Step2, c1Step1, c1Start, addScore, removeBody, checkGameOver,
      setInitialBodyCount, gmFresh, bodyA, bodyB, bodyC, wallD, List.filter]
  · norm_num [c1Step3, c1Step2, c1Step1, c1Start, addScore, removeBody,
      checkGameOver, setInitialBodyCount, gmFresh, bodyA, bodyB, bodyC, wallD,
      List.filter]
  · norm_num [c1Step4, c1Step3, c1Step2, c1Step1, c1Start, addScore,
      removeBody, checkGameOver, setInitialBodyCount, gmFresh, bodyA, bodyB,
      bodyC, wallD, List.filter]
  · norm_num [c1Step4, c1Step3, c1Step2, c1Step1, c1Start, addScore,
      removeBody, checkGameOver, setInitialBodyCount, gmFresh, bodyA, bodyB,
      bodyC, wallD, List.filter]

/-- Witness for C1: applying the general transition conditions at the
concrete state reached after the 3rd removal, and the already-over
absorption at the state after the 3rd call. -/
theorem gameOver_fires_exactly_once_witness :
    checkGameOver c1Step3 = c1Step3
    ∧ ((removeBody bodyC c1Step2).gm.initialBodyCount > 0
        ∧ ((removeBody bodyC c1Step2).world.filter
            (fun b => !b.isStatic)).length = 0) := by
  have h := gameOver_fires_exactly_once
  constructor
  · exact h.1 c1Step3 h.2.2.2.2.1
  · refine h.2.1 (removeBody bodyC c1Step2) ?_ ?_
    · norm_num [c1Step2, c1Step1, c1Start, addScore, removeBody, checkGameOver,
        setInitialBodyCount, gmFresh, bodyA, bodyB, bodyC, wallD, List.filter]
    · norm_num [c1Step2, c1Step1, c1Start, addScore, removeBody, checkGameOver,
        setInitialBodyCount, gmFresh, bodyA, bodyB, bodyC, wallD, List.filter]

/-- One call into the GameManager, for stating properties of call
sequences: an addScore call with its points argument, an addAttempt call
with its count argument, or a bare checkGameOver call. -/
inductive GMOp where
  | score : ℚ → GMOp
  | attempt : ℚ → GMOp
  | checkOver : GMOp
deriving DecidableEq

/-- Runs one GameManager call on the state. -/
def runOp (s : SysState) (op : GMOp) : SysState :=
  match op with
  | GMOp.score p => addScore p s
  | GMOp.attempt c => addAttempt c s
  | GMOp.checkOver => checkGameOver s

/-- Runs a sequence of GameManager calls, left to right. -/
def runOps (s : SysState) (ops : List GMOp) : SysState :=
  ops.foldl runOp s

/-- Holds when an operation is not an addScore call with negative points. -/
def nonNegPoints : GMOp → Prop
  | GMOp.score p => 0 ≤ p
  | GMOp.attempt _ => True
  | GMOp.checkOver => True

/-- A state with score 5 and no engine set, used to exhibit that addScore
with a negative argument decreases the score. -/
def c7State : SysState := ⟨[], ⟨5, 0, 0, false, false, false⟩⟩

/-- Claim C7 counterexample: addScore accepts an arbitrary points
argument, so calling it with -1 on a state with score 5 yields score 4;
the score after the call is not greater than or equal to the score before
it, refuting the claim for unrestricted addScore arguments. -/
theorem addScore_negative_decreases :
    ¬ c7State.gm.score ≤ (addScore (-1) c7State).gm.score := by
  rw [addScore_gm_score]
  norm_num [c7State]

/-- Claim C7 amended: for every sequence of addScore (with nonnegative
points), addAttempt, and checkGameOver calls, with no reset, the score
never decreases; in particular every call with the source's default
argument 1 keeps the score nondecreasing. -/
theorem score_monotone (ops : List GMOp) (s : SysState)
    (h : ∀ op ∈ ops, nonNegPoints op) :
    s.gm.score ≤ (runOps s ops).gm.score := by
  induction ops generalizing s with
  | nil => simp [runOps]
  | cons op rest ih =>
    have h1 : s.gm.score ≤ (runOp s op).gm.score := by
      cases op with
      | score p =>
        have hp : nonNegPoints (GMOp.score p) := h _ (List.mem_cons_self _ _)
        have hp2 : 0 ≤ p := hp
        show s.gm.score ≤ (addScore p s).gm.score
        rw [addScore_gm_score]
        linarith
      | attempt c => simp [runOp, addAttempt]
      | checkOver =>
        show s.gm.score ≤ (checkGameOver s).gm.score
        rw [checkGameOver_gm_score]
    have h2 : (runOp s op).gm.score ≤ (runOps (runOp s op) rest).gm.score :=
      ih (runOp s op) (fun o ho => h o (List.mem_cons_of_mem _ ho))
    have h3 : runOps s (op :: rest) = runOps (runOp s op) rest := rfl
    rw [h3]
    exact le_trans h1 h2

/-- Witness for C7 amended: a concrete nonnegative call sequence on the
concrete state, with the score nondecreasing. -/
theorem score_monotone_witness :
    c7State.gm.score ≤
      (runOps c7State [GMOp.score 1, GMOp.attempt 1, GMOp.checkOver]).gm.score :=
  score_monotone [GMOp.score 1, GMOp.attempt 1, GMOp.checkOver] c7State
    (by
      intro op hop
      simp only [List.mem_cons, List.not_mem_nil, or_false] at hop
      rcases hop with h | h | h <;> subst h <;> norm_num [nonNegPoints])

/-- Claim C8: resetGame zeroes the score, zeroes the attempts counter,
and clears the game-over flag, from any state. -/
theorem resetGame_resets (s : SysState) :
    (resetGame s).gm.score = 0 ∧ (resetGame s).gm.attempts = 0
      ∧ (resetGame s).gm.isGameOver = false := by
  simp [resetGame, resetScore, resetAttempts]

/-- Witness for C8 at the concrete game-over state reached in the C1
scenario. -/
theorem resetGame_resets_witness :
    (resetGame c1Step3).gm.score = 0 ∧ (resetGame c1Step3).gm.attempts = 0
      ∧ (resetGame c1Step3).gm.isGameOver = false :=
  resetGame_resets c1Step3

/-- Claim C10: resetGame modifies only the score, the attempts counter,
and the game-over flag; the initial body count baseline, the engine
reference, the restart callback, and the world are unchanged, so the
game-over predicate keeps using the previously set initial body count
until setInitialBodyCount is called again. -/
theorem resetGame_frame (s : SysState) :
    (resetGame s).gm.initialBodyCount = s.gm.initialBodyCount
    ∧ (resetGame s).gm.engineSet = s.gm.engineSet
    ∧ (resetGame s).gm.restartCallbackSet = s.gm.restartCallbackSet
    ∧ (resetGame s).world = s.world := by
  simp [resetGame, resetScore, resetAttempts]

/-- Witness for C10 at the concrete game-over state reached in the C1
scenario: the initial body count baseline 3 survives the reset. -/
theorem resetGame_frame_witness :
    (resetGame c1Step3).gm.initialBodyCount = c1Step3.gm.initialBodyCount
    ∧ (resetGame c1Step3).gm.engineSet = c1Step3.gm.engineSet
    ∧ (resetGame c1Step3).gm.restartCallbackSet
        = c1Step3.gm.restartCallbackSet
    ∧ (resetGame c1Step3).world = c1Step3.world :=
  resetGame_frame c1Step3

/-- The BoundaryBox boxDimensions record: the top-left corner of the goal
box rectangle together with its width and height. -/
structure BoxDimensions where
  x : ℚ
  y : ℚ
  width : ℚ
  height : ℚ
deriving DecidableEq

/-- BoundaryBox.isBodyInBox: the settled containment test used by the
per-tick polling pass; the vertical range is narrowed by the fixed inset
85 from the box top. -/
def isBodyInBox (d : BoxDimensions) (body : Body) : Bool :=
  body.position.x > d.x && body.position.x < d.x + d.width &&
    body.position.y > d.y + 85 && body.position.y < d.y + d.height

/-- BoundaryBox.isBodyInsideBox: the strict containment test used by the
collision path; the body center must be strictly within all four sides. -/
def isBodyInsideBox (d : BoxDimensions) (body : Body) : Bool :=
  body.position.x > d.x && body.position.x < d.x + d.width &&
    body.position.y > d.y && body.position.y < d.y + d.height

/-- The boxDimensions computed by BoundaryBox.createBoxParts from the
canvas size: a box 180 wide and 140 tall near the bottom-right corner,
stored by its top-left corner. -/
def createBoxDimensions (width height : ℚ) : BoxDimensions :=
  { x := (width - (50.5 / 1.2 + 180 / 2)) - 180 / 2
  , y := (height - (50.5 / 1.2 + 140 / 2)) - 140 / 2
  , width := 180
  , height := 140 }

/-- The concrete goal box of the spec scenario: x from 700 to 880, y from
370 to 510. -/
def box700 : BoxDimensions := ⟨700, 370, 180, 140⟩

/-- Claim C5: the strict containment test uses strict inequality on all
four sides: every point strictly inside the region is contained, and
every point lying exactly on one of the four boundary edges is not. -/
theorem isBodyInsideBox_strict (d : BoxDimensions) (b : Body) :
    (d.x < b.position.x → b.position.x < d.x + d.width →
      d.y < b.position.y → b.position.y < d.y + d.height →
      isBodyInsideBox d b = true)
    ∧ (b.position.x = d.x ∨ b.position.x = d.x + d.width
        ∨ b.position.y = d.y ∨ b.position.y = d.y + d.height →
      isBodyInsideBox d b = false) := by
  constructor
  · intro h1 h2 h3 h4
    simp only [isBodyInsideBox, Bool.and_eq_true, decide_eq_true_eq]
    exact ⟨⟨⟨h1, h2⟩, h3⟩, h4⟩
  · intro h
    rw [Bool.eq_false_iff]
    intro htrue
    simp only [isBodyInsideBox, Bool.and_eq_true, decide_eq_true_eq] at htrue
    obtain ⟨⟨⟨hx1, hx2⟩, hy1⟩, hy2⟩ := htrue
    rcases h with h | h | h | h <;> linarith

/-- Witness for C5 at the concrete goal box: the center (750, 400) is
strictly inside and contained; a center on the left edge x = 700 is not
contained. -/
theorem isBodyInsideBox_strict_witness :
    isBodyInsideBox box700 ⟨5, ⟨750, 400⟩, false⟩ = true
    ∧ isBodyInsideBox box700 ⟨6, ⟨700, 400⟩, false⟩ = false :=
  ⟨(isBodyInsideBox_strict box700 ⟨5, ⟨750, 400⟩, false⟩).1
      (by norm_num [box700]) (by norm_num [box700]) (by norm_num [box700])
      (by norm_num [box700]),
    (isBodyInsideBox_strict box700 ⟨6, ⟨700, 400⟩, false⟩).2
      (Or.inl (by norm_num [box700]))⟩

/-- Claim C6: every center satisfying the settled test satisfies the
strict test; the source geometry always produces a box of width 180 and
height 140 (so the inset 85 leaves a satisfiable settled zone); and in
the concrete goal box with corner (700, 370): the center (750, 480)
passes the settled test, (750, 420) passes the strict test, and
(750, 430) passes the strict test but not the settled one, so the polling
path does not collect it. -/
theorem settled_implies_strict :
    (∀ (d : BoxDimensions) (b : Body),
        isBodyInBox d b = true → isBodyInsideBox d b = true)
    ∧ (∀ w h : ℚ, (createBoxDimensions w h).width = 180
        ∧ (createBoxDimensions w h).height = 140)
    ∧ isBodyInBox box700 ⟨11, ⟨750, 480⟩, false⟩ = true
    ∧ isBodyInsideBox box700 ⟨12, ⟨750, 420⟩, false⟩ = true
    ∧ isBodyInsideBox box700 ⟨13, ⟨750, 430⟩, false⟩ = true
    ∧ isBodyInBox box700 ⟨13, ⟨750, 430⟩, false⟩ = false := by
  refine ⟨?_, ?_, ?_, ?_, ?_, ?_⟩
  · intro d b h
    simp only [isBodyInBox, Bool.and_eq_true, decide_eq_true_eq] at h
    obtain ⟨⟨⟨hx1, hx2⟩, hy1⟩, hy2⟩ := h
    simp only [isBodyInsideBox, Bool.and_eq_true, decide_eq_true_eq]
    exact ⟨⟨⟨hx1, hx2⟩, by linarith⟩, hy2⟩
  · intro w h
    exact ⟨rfl, rfl⟩
  · norm_num [isBodyInBox, box700]
  · norm_num [isBodyInsideBox, box700]
  · norm_num [isBodyInsideBox, box700]
  · norm_num [isBodyInBox, box700]

/-- Witness for C6: the settled center (750, 480) is also strictly
contained, by the general implication at this concrete box and body. -/
theorem settled_implies_strict_witness :
    isBodyInsideBox box700 ⟨11, ⟨750, 480⟩, false⟩ = true :=
  settled_implies_strict.1 box700 ⟨11, ⟨750, 480⟩, false⟩
    (by norm_num [isBodyInBox, box700])

/-- One iteration of the loop in BoundaryBox.checkBodiesInBox: if the
body's center passes the settled test, remove the body from the
simulation, then increment the score (which itself re-checks game over). -/
def checkStep (d : BoxDimensions) (s : SysState) (body : Body) : SysState :=
  if isBodyInBox d body then addScore 1 (removeBody body s) else s

/-- BoundaryBox.checkBodiesInBox, the per-tick polling pass: take the
snapshot of all bodies, filter out the static ones, and process each in
order. -/
def checkBodiesInBox (d : BoxDimensions) (s : SysState) : SysState :=
  (s.world.filter (fun body => !body.isStatic)).foldl (checkStep d) s

theorem checkStep_world_mem (d : BoxDimensions) (s : SysState) (b : Body)
    (x : Body) (hx : x ∈ (checkStep d s b).world) : x ∈ s.world := by
  unfold checkStep at hx
  split_ifs at hx with h
  · rw [addScore_world] at hx
    unfold removeBody at hx
    exact List.mem_of_mem_filter hx
  · exact hx

theorem foldl_checkStep_world_mem (d : BoxDimensions) (l : List Body) :
    ∀ (s : SysState) (x : Body), x ∈ (l.foldl (checkStep d) s).world →
      x ∈ s.world := by
  induction l with
  | nil => intro s x hx; exact hx
  | cons a rest ih =>
    intro s x hx
    exact checkStep_world_mem d s a x (ih (checkStep d s a) x hx)

theorem foldl_checkStep_removes (d : BoxDimensions) (l : List Body)
    (b : Body) (hbox : isBodyInBox d b = true) :
    ∀ s : SysState, b ∈ l →
      ∀ x ∈ (l.foldl (checkStep d) s).world, x.id ≠ b.id := by
  induction l with
  | nil => intro s hb; cases hb
  | cons a rest ih =>
    intro s hb x hx
    rcases List.mem_cons.mp hb with h | h
    · subst h
      have hmem : x ∈ (checkStep d s b).world :=
        foldl_checkStep_world_mem d rest (checkStep d s b) x hx
      unfold checkStep at hmem
      rw [if_pos hbox, addScore_world] at hmem
      unfold removeBody at hmem
      simp only [List.mem_filter, decide_eq_true_eq] at hmem
      exact hmem.2
    · exact ih (checkStep d s a) h x hx

theorem foldl_checkStep_score (d : BoxDimensions) (l : List Body) :
    ∀ s : SysState, (l.foldl (checkStep d) s).gm.score
      = s.gm.score + (l.countP (fun b => isBodyInBox d b) : ℚ) := by
  induction l with
  | nil => intro s; simp
  | cons a rest ih =>
    intro s
    show (rest.foldl (checkStep d) (checkStep d s a)).gm.score = _
    rw [ih]
    by_cases h : isBodyInBox d a = true
    · rw [List.countP_cons_of_pos _ _ h]
      have hs : (checkStep d s a).gm.score = s.gm.score + 1 := by
        unfold checkStep
        rw [if_pos h, addScore_gm_score]
        unfold removeBody
        rfl
      rw [hs]
      push_cast
      ring
    · rw [List.countP_cons_of_neg _ _ h]
      have hs : (checkStep d s a).gm.score = s.gm.score := by
        unfold checkStep
        rw [if_neg h]
      rw [hs]

/-- Claim C2: after one checkBodiesInBox pass, every non-static body
whose center passed the settled containment test before the call has been
removed from the simulation, and the score rose by exactly the number of
such bodies: one score increment per collected body. -/
theorem checkBodiesInBox_collects (d : BoxDimensions) (s : SysState) :
    (∀ b ∈ s.world, b.isStatic = false → isBodyInBox d b = true →
      ∀ x ∈ (checkBodiesInBox d s).world, x.id ≠ b.id)
    ∧ (checkBodiesInBox d s).gm.score = s.gm.score
        + ((s.world.filter (fun b => !b.isStatic)).countP
            (fun b => isBodyInBox d b) : ℚ) := by
  constructor
  · intro b hb hstat hbox x hx
    have hbl : b ∈ s.world.filter (fun b => !b.isStatic) :=
      List.mem_filter.mpr ⟨hb, by rw [hstat]; rfl⟩
    exact foldl_checkStep_removes d _ b hbox s hbl x hx
  · exact foldl_checkStep_score d _ s

/-- A body settled in the goal box, used as the witness for C2. -/
def ballP : Body := ⟨21, ⟨750, 480⟩, false⟩

/-- Start state for the C2 witness: one settled body and one static wall. -/
def c2State : SysState := ⟨[ballP, wallD], ⟨0, 0, 1, false, true, false⟩⟩

/-- Witness for C2: after the polling pass on the concrete state, no body
with the settled body's id remains, and the score rose by the count of
settled non-static bodies. -/
theorem checkBodiesInBox_collects_witness :
    (∀ x ∈ (checkBodiesInBox box700 c2State).world, x.id ≠ ballP.id)
    ∧ (checkBodiesInBox box700 c2State).gm.score = c2State.gm.score
        + ((c2State.world.filter (fun b => !b.isStatic)).countP
            (fun b => isBodyInBox box700 b) : ℚ) :=
  ⟨(checkBodiesInBox_collects box700 c2State).1 ballP
      (by simp [c2State]) (by norm_num [ballP])
      (by norm_num [isBodyInBox, box700, ballP]),
    (checkBodiesInBox_collects box700 c2State).2⟩

/-- A collisionStart pair, carrying the two bodies involved. -/
structure CollisionPair where
  bodyA : Body
  bodyB : Body
deriving DecidableEq

/-- One iteration of the pair loop in BoundaryBox.handleCollision: skip
the pair unless one side is a recognized box wall; take the other body;
skip it if static; otherwise, if its center passes the strict containment
test, add a score point (which re-checks game over), remove the body from
the world, and check game over again. -/
def collisionStep (d : BoxDimensions) (boxParts : List Body)
    (s : SysState) (pair : CollisionPair) : SysState :=
  if pair.bodyA ∉ boxParts ∧ pair.bodyB ∉ boxParts then s
  else
    let otherBody := if pair.bodyA ∈ boxParts then pair.bodyB else pair.bodyA
    if otherBody.isStatic then s
    else if isBodyInsideBox d otherBody then
      checkGameOver (removeBody otherBody (addScore 1 s))
    else s

/-- BoundaryBox.handleCollision processing of one collisionStart event:
the pair loop runs over all pairs of the event, in order. -/
def handleCollisionStart (d : BoxDimensions) (boxParts : List Body)
    (s : SysState) (pairs : List CollisionPair) : SysState :=
  pairs.foldl (collisionStep d boxParts) s

/-- The bottom wall of the concrete goal box. -/
def bottomWall : Body := ⟨101, ⟨790, 510⟩, true⟩

/-- The left wall of the concrete goal box. -/
def leftWall : Body := ⟨102, ⟨700, 440⟩, true⟩

/-- A non-static body whose center (750, 400) is strictly inside the
concrete goal box but above the settled zone. -/
def ballQ : Body := ⟨7, ⟨750, 400⟩, false⟩

/-- The recognized wall parts of the concrete goal box. -/
def c3Parts : List Body := [bottomWall, leftWall]

/-- Start state for the C3 scenario: the ball and the two walls, score 0,
initial body count 3, game not over, engine set. -/
def c3Start : SysState :=
  ⟨[ballQ, bottomWall, leftWall], ⟨0, 0, 3, false, true, false⟩⟩

/-- One collisionStart event whose two pairs both involve the same
non-static body, once against each wall. -/
def c3Pairs : List CollisionPair := [⟨ballQ, leftWall⟩, ⟨ballQ, bottomWall⟩]

/-- The state after the collision path processes that one event. -/
def c3End : SysState := handleCollisionStart box700 c3Parts c3Start c3Pairs

/-- Claim C3 counterexample: one collisionStart event containing two
pairs with the same non-static body (center strictly inside the box) and
two different box walls makes the collision path score the body once per
pair: the score after the event is 2, not the single increment the claim
requires. -/
theorem collision_scores_twice :
    c3End.gm.score = 2 ∧ ¬ c3End.gm.score = c3Start.gm.score + 1 := by
  constructor <;>
    norm_num [c3End, c3Start, handleCollisionStart, collisionStep,
      checkGameOver, addScore, removeBody, isBodyInsideBox, box700, ballQ,
      bottomWall, leftWall, c3Parts, c3Pairs, List.filter]

/-- Claim C3 amended: removal of an already-absent entity is a no-op
rather than an error, and in the two-pair scenario the collected body is
removed from the simulation exactly once (the second removal request
finds it absent and changes nothing); but the collision path does not
guard against re-processing, so the body is scored once per qualifying
pair: the score is 2 after the event, not 1. -/
theorem collision_removal_idempotent :
    (∀ (b : Body) (s : SysState), (∀ x ∈ s.world, x.id ≠ b.id) →
      removeBody b s = s)
    ∧ c3End.world = [bottomWall, leftWall]
    ∧ c3End.gm.score = 2 := by
  refine ⟨?_, ?_, ?_⟩
  · intro b s h
    unfold removeBody
    have hfe : s.world.filter (fun x => x.id ≠ b.id) = s.world :=
      List.filter_eq_self.mpr (fun x hx => by simpa using h x hx)
    rw [hfe]
  · norm_num [c3End, c3Start, handleCollisionStart, collisionStep,
      checkGameOver, addScore, removeBody, isBodyInsideBox, box700, ballQ,
      bottomWall, leftWall, c3Parts, c3Pairs, List.filter]
  · norm_num [c3End, c3Start, handleCollisionStart, collisionStep,
      checkGameOver, addScore, removeBody, isBodyInsideBox, box700, ballQ,
      bottomWall, leftWall, c3Parts, c3Pairs, List.filter]

/-- Witness for C3 amended: removing a body whose id is absent from the
concrete start state leaves the state unchanged. -/
theorem collision_removal_idempotent_witness :
    removeBody ⟨99, ⟨0, 0⟩, false⟩ c3Start = c3Start :=
  collision_removal_idempotent.1 ⟨99, ⟨0, 0⟩, false⟩ c3Start
    (by norm_num [c3Start, ballQ, bottomWall, leftWall])

end MatterTs
